import Mathlib

/-
Verification of `generate_page.py` (havewecrashedyet): a linear
fetch → classify → render pipeline.  The script fetches one quote,
classifies the daily percent change against fixed thresholds, looks up a
decorative embed snippet, and renders an HTML page.

Shallow embedding conventions:
* Python floats are modelled as exact rationals (ℚ); the threshold
  literals (-10, -5, -2, 2, 0.2) are the same literals as in the source.
* JSON field values that the script reads (`dp`, `c`) are modelled by
  `PyVal`: either a number or a non-numeric value (represented by a
  string), since the only distinction the script's behaviour depends on
  is whether `f"{v:.2f}"` succeeds.
* The single HTTP request's outcome is the input `FetchResult`, one
  constructor per `except` arm of the source plus `success`.
* Python exceptions are `Except String`: `get_market_data` returns
  `Except String MarketReport`, where `.error` means an exception
  escaped the function (the final f-strings of the return dictionary at
  lines 135-136 are OUTSIDE the try/except block, so they can raise).
* `datetime.now()` is an explicit `now : String` parameter.
-/

/-- A JSON field value as the script sees it: numeric, or some
non-numeric Python value (string, bool, list, ...) for which the
format spec `:.2f` raises. -/
inductive PyVal where
  | num (q : ℚ)
  | nonNum (repr : String)
deriving DecidableEq

/-- Outcome of `session.get(quote_url, timeout=10)` followed by
`raise_for_status()` and `response.json()`, one constructor per
`except` arm of `get_market_data` plus the success path carrying the
two fields the script reads (`dp` and `c`, each possibly absent). -/
inductive FetchResult where
  | timeout
  | httpError (http_err : String) (err_details : Option String)
  | requestError (req_err : String)
  | otherError (e : String)
  | success (dp : Option PyVal) (c : Option PyVal)
deriving DecidableEq

/-- Line 18: `INDEX_SYMBOL = 'SPY'`. -/
def INDEX_SYMBOL : String := "SPY"

/-- Round a rational to the nearest integer, ties to even — the
rounding used by Python's fixed-point float formatting. -/
def roundHalfEven (q : ℚ) : ℤ :=
  let n := ⌊q⌋
  let frac := q - n
  if frac < 1/2 then n
  else if 1/2 < frac then n + 1
  else if n % 2 = 0 then n else n + 1

/-- Two-digit zero-padded decimal rendering of a natural below 100. -/
def padTwo (n : ℕ) : String :=
  if n < 10 then "0" ++ toString n else toString n

/-- Python `f"{q:.2f}"` for a numeric value: two decimal places,
round half to even. -/
def formatTwoDec (q : ℚ) : String :=
  let c := roundHalfEven (q * 100)
  let sign := if c < 0 then "-" else ""
  sign ++ toString (c.natAbs / 100) ++ "." ++ padTwo (c.natAbs % 100)

/-- Python `f"{v:.2f}"` on an arbitrary value: succeeds on numbers,
raises (ValueError / TypeError) on non-numeric values. -/
def format2f (v : PyVal) : Except String String :=
  match v with
  | .num q => .ok (formatTwoDec q)
  | .nonNum _ => .error "Unknown format code f for object of non-numeric type"

/-- Lines 59-88: the threshold chain, evaluated top to bottom, first
match wins.  Returns (status_text, status_class, subtitle,
arrow_character). -/
def classifyStatus (overall_index_change : ℚ) : String × String × String × String :=
  if overall_index_change ≤ -10 then
    ("YES!", "yes",
     "S&P 500 down " ++ formatTwoDec overall_index_change ++ "%. Deep breaths.", "▼")
  else if overall_index_change ≤ -5 then
    ("BLEEDING", "bleeding",
     "S&P 500 down " ++ formatTwoDec overall_index_change ++ "%. Minor dip.", "▼")
  else if overall_index_change < -2 then
    ("WOBBLY", "wobbly",
     "S&P 500 down " ++ formatTwoDec overall_index_change ++ "%. Looking shaky.", "▼")
  else if overall_index_change > 2 then
    ("NOT YET!", "no",
     "S&P 500 up " ++ formatTwoDec overall_index_change ++ "%. Still climbing!", "▲")
  else if overall_index_change > 0.2 then
    ("CLIMBING", "climbing",
     "S&P 500 up " ++ formatTwoDec overall_index_change ++ "%. Gentle rise.", "▲")
  else
    ("FLAT", "sideways",
     "S&P 500 change: " ++ formatTwoDec overall_index_change ++ "%. Holding steady...", "▬")

/-- The status_class component of the threshold chain. -/
def status_class_of (q : ℚ) : String :=
  (classifyStatus q).2.1

/-- Lines 150-172: the `embed_map` dictionary of `get_visual_humor_embed`,
as an association list (ordered as in the source). -/
def embed_map : List (String × String) :=
  [("yes", "\n            <div style=\"width:100%;height:0;padding-bottom:56%;position:relative;\"><iframe src=\"https://giphy.com/embed/1rNWZu4QQqCUaq434T\" width=\"100%\" height=\"100%\" style=\"position:absolute\" frameBorder=\"0\" class=\"giphy-embed\" allowFullScreen></iframe></div><p><a href=\"https://giphy.com/gifs/this-is-fine-dumpster-fire-floating-1rNWZu4QQqCUaq434T\">via GIPHY</a></p>\n            "),
   ("wobbly", "\n            <div style=\"width:100%;height:0;padding-bottom:100%;position:relative;\"><iframe src=\"https://giphy.com/embed/NTur7XlVDUdqM\" width=\"100%\" height=\"100%\" style=\"position:absolute\" frameBorder=\"0\" class=\"giphy-embed\" allowFullScreen></iframe></div><p><a href=\"https://giphy.com/gifs/this-is-fine-dog-ntur7xldudqm\">via GIPHY</a></p>\n            "),
   ("bleeding", "\n            <div style=\"width:100%;height:0;padding-bottom:50%;position:relative;\"><iframe src=\"https://giphy.com/embed/3IMr40UId6417vSWZ6\" width=\"100%\" height=\"100%\" style=\"position:absolute\" frameBorder=\"0\" class=\"giphy-embed\" allowFullScreen></iframe></div><p><a href=\"https://giphy.com/gifs/a24-lamb-3IMr40UId6417vSWZ6\">via GIPHY</a></p>\n            "),
   ("no", "\n            <div style=\"width:100%;height:0;padding-bottom:100%;position:relative;\"><iframe src=\"https://giphy.com/embed/d8SRR4aDUINuU\" width=\"100%\" height=\"100%\" style=\"position:absolute\" frameBorder=\"0\" class=\"giphy-embed\" allowFullScreen></iframe></div><p><a href=\"https://giphy.com/gifs/nooooo-d8SRR4aDUINuU\">via GIPHY</a></p>\n            "),
   ("climbing", "\n            <div style=\"width:100%;height:0;padding-bottom:75%;position:relative;\"><iframe src=\"https://giphy.com/embed/NEvPzZ8bd1V4Y\" width=\"100%\" height=\"100%\" style=\"position:absolute\" frameBorder=\"0\" class=\"giphy-embed\" allowFullScreen></iframe></div><p><a href=\"https://giphy.com/gifs/reactionseditor-yes-nice-nevpzz8bd1v4y\">via GIPHY</a></p>\n            "),
   ("sideways", "\n            <div style=\"width:100%;height:0;padding-bottom:56%;position:relative;\"><iframe src=\"https://giphy.com/embed/l1J3VHwlmsc9vsmju\" width=\"100%\" height=\"100%\" style=\"position:absolute\" frameBorder=\"0\" class=\"giphy-embed\" allowFullScreen></iframe></div><p><a href=\"https://giphy.com/gifs/masterchef-fox-season-8-l1J3VHwlmsc9vsmju\">via GIPHY</a></p>\n            "),
   ("error", "\n            <div style=\"width:100%;height:0;padding-bottom:56%;position:relative;\"><iframe src=\"https://giphy.com/embed/JliGmPEIgzGLe\" width=\"100%\" height=\"100%\" style=\"position:absolute\" frameBorder=\"0\" class=\"giphy-embed\" allowFullScreen></iframe></div><p><a href=\"https://giphy.com/gifs/computer-computers-problems-JliGmPEIgzGLe\">via GIPHY</a></p>\n            ")]

/-- Lines 176-178: the default fallback embed of `get_visual_humor_embed`. -/
def default_embed : String :=
  "\n        <div style=\"width:100%;height:0;padding-bottom:100%;position:relative;\"><iframe src=\"https://giphy.com/embed/l0HlHFRbmaZtBRhXG\" width=\"100%\" height=\"100%\" style=\"position:absolute\" frameBorder=\"0\" class=\"giphy-embed\" allowFullScreen></iframe></div><p><a href=\"https://giphy.com/gifs/reactionseditor-shrug-l0hlhfrbmaztbrhxg\">via GIPHY</a></p>\n        "

/-- Lines 143-179: `embed_map.get(status_class, default_embed)`. -/
def get_visual_humor_embed (status_class : String) : String :=
  (embed_map.lookup status_class).getD default_embed

/-- The dictionary returned by `get_market_data` (lines 129-140). -/
structure MarketReport where
  status_text : String
  status_class : String
  status_arrow : String
  subtitle : String
  giphy_embed_code : String
  index_change_percent : String
  index_current_price : String
  index_symbol : String
  generation_time : String
  error_message : Option String
deriving DecidableEq

/-- The local state of `get_market_data` after the try/except block
(lines 29-121): the variables the final return dictionary reads. -/
structure FetchState where
  overall_index_change : Option PyVal
  current_price : Option PyVal
  error_msg : Option String
  status_text : String
  status_class : String
  subtitle : String
  arrow_character : String

/-- Lines 39-121 of `get_market_data`: the try block and its `except`
arms.  The initial values (lines 29-35) are `overall_index_change = 0`,
`current_price = None`, `error_msg = None`; every `except` arm leaves
the first two untouched (the exception fires before any assignment of
the success path) except the generic-exception arm reached from the
success path when `f"\x7boverall_index_change:.2f\x7d"` on line 56
raises on a non-numeric `dp`. -/
def run_fetch_try (fetch : FetchResult) : FetchState :=
  match fetch with
  | .timeout =>
      { overall_index_change := some (.num 0), current_price := none,
        error_msg := some "API request timed out.",
        status_text := "ERROR", status_class := "error",
        subtitle := "Could not fetch market data.", arrow_character := "?" }
  | .httpError http_err err_details =>
      { overall_index_change := some (.num 0), current_price := none,
        error_msg := some (match err_details with
          | some d => "API HTTP error: " ++ http_err ++ " - " ++ d
          | none => "API HTTP error occurred: " ++ http_err),
        status_text := "ERROR", status_class := "error",
        subtitle := "Could not fetch market data.", arrow_character := "?" }
  | .requestError req_err =>
      { overall_index_change := some (.num 0), current_price := none,
        error_msg := some ("API Request error occurred: " ++ req_err),
        status_text := "ERROR", status_class := "error",
        subtitle := "Could not fetch market data.", arrow_character := "?" }
  | .otherError e =>
      { overall_index_change := some (.num 0), current_price := none,
        error_msg := some ("An unexpected error occurred: " ++ e),
        status_text := "ERROR", status_class := "error",
        subtitle := "Could not determine market status.", arrow_character := "?" }
  | .success dp c =>
      match dp with
      | none =>
          -- lines 51-54: missing 'dp' is treated as 0 (flat) with an
          -- advisory message, then classified normally
          let cls := classifyStatus 0
          { overall_index_change := some (.num 0), current_price := c,
            error_msg := some ("Could not retrieve percent change for " ++ INDEX_SYMBOL ++ "."),
            status_text := cls.1, status_class := cls.2.1,
            subtitle := cls.2.2.1, arrow_character := cls.2.2.2 }
      | some (.num q) =>
          let cls := classifyStatus q
          { overall_index_change := some (.num q), current_price := c,
            error_msg := none,
            status_text := cls.1, status_class := cls.2.1,
            subtitle := cls.2.2.1, arrow_character := cls.2.2.2 }
      | some (.nonNum s) =>
          -- line 56: print(f"... \x7boverall_index_change:.2f\x7d ...")
          -- raises on a non-numeric value; caught by `except Exception`
          { overall_index_change := some (.nonNum s), current_price := c,
            error_msg := some ("An unexpected error occurred: " ++
              "Unknown format code f for object of non-numeric type " ++ s),
            status_text := "ERROR", status_class := "error",
            subtitle := "Could not determine market status.", arrow_character := "?" }

/-- Line 135: `f"\x7boverall_index_change:.2f\x7d%" if overall_index_change
is not None else "N/A"` — evaluated OUTSIDE the try block, so it can
raise. -/
def format_change_field (v : Option PyVal) : Except String String :=
  match v with
  | some v =>
      match format2f v with
      | .ok s => .ok (s ++ "%")
      | .error e => .error e
  | none => .ok "N/A"

/-- Line 136: `f"\x7bcurrent_price:.2f\x7d" if current_price is not None
else "N/A"` — also outside the try block. -/
def format_price_field (v : Option PyVal) : Except String String :=
  match v with
  | some v => format2f v
  | none => .ok "N/A"

/-- Lines 26-140: `get_market_data`.  The `FetchResult` is the outcome
of the one HTTP request; `now` is `datetime.now().strftime(...)`.
Returns `.error` when an exception escapes the function (possible only
from the f-strings of the return dictionary, which sit outside the
try/except block). -/
def get_market_data (fetch : FetchResult) (now : String) : Except String MarketReport :=
  let s := run_fetch_try fetch
  let giphy_embed_code := get_visual_humor_embed s.status_class
  match format_change_field s.overall_index_change with
  | .error e => .error e
  | .ok index_change_percent =>
      match format_price_field s.current_price with
      | .error e => .error e
      | .ok index_current_price =>
          .ok { status_text := s.status_text,
                status_class := s.status_class,
                status_arrow := s.arrow_character,
                subtitle := s.subtitle,
                giphy_embed_code := giphy_embed_code,
                index_change_percent := index_change_percent,
                index_current_price := index_current_price,
                index_symbol := INDEX_SYMBOL,
                generation_time := now,
                error_message := s.error_msg }

/-- A Jinja2 template as `generate_html` uses it: rendering with a data
dictionary either produces the output markup or raises. -/
structure Template where
  render : MarketReport → Except String String

/-- Lines 182-201: `generate_html`.  The effectful steps — loading the
template, rendering it, writing the output file — are explicit fallible
inputs; every failure is caught by the `except` arm and turned into
`false`. -/
def generate_html (env_get_template : Except String Template)
    (data : MarketReport) (write_file : String → Except String Unit) : Bool :=
  match env_get_template with
  | .error _ => false
  | .ok template =>
      match template.render data with
      | .error _ => false
      | .ok output_content =>
          match write_file output_content with
          | .error _ => false
          | .ok _ => true

/-- Lines 10-13 and 204-217: the process exit code.  `api_key` is
`os.environ.get('FINANCIAL_API_KEY')`; `if not API_KEY` is true for a
missing or empty variable and exits with code 1 before any fetch.
Otherwise the script runs `get_market_data` and `generate_html`,
ignores the latter's boolean, and exits 0 — unless `get_market_data`
raises, in which case the interpreter dies with a traceback and a
nonzero status (modelled as 1). -/
def main_exit_code (api_key : Option String) (fetch : FetchResult) (now : String)
    (env_get_template : Except String Template)
    (write_file : String → Except String Unit) : Nat :=
  match api_key with
  | none => 1
  | some k =>
      if k = "" then 1
      else
        match get_market_data fetch now with
        | .error _ => 1
        | .ok market_data =>
            let _ := generate_html env_get_template market_data write_file
            0

/-- The list of keys of `embed_map`, in source order: the enumerated
status_class category set. -/
def embed_map_keys : List String := embed_map.map Prod.fst

/-- A template whose rendering always succeeds, for instantiating the
renderer theorems. -/
def ok_template : Template := ⟨fun _ => Except.ok "<html></html>"⟩

/-- A file write that always succeeds, for instantiating the renderer
theorems. -/
def ok_write : String → Except String Unit := fun _ => Except.ok ()

lemma formatTwoDec_zero : formatTwoDec 0 = "0.00" := by
  unfold formatTwoDec roundHalfEven
  norm_num
  decide

lemma status_class_of_zero : status_class_of 0 = "sideways" := by
  unfold status_class_of classifyStatus
  norm_num

lemma status_class_of_two : status_class_of 2 = "climbing" := by
  unfold status_class_of classifyStatus
  norm_num

lemma status_class_of_total (q : ℚ) :
    status_class_of q = "yes" ∨ status_class_of q = "bleeding" ∨
    status_class_of q = "wobbly" ∨ status_class_of q = "no" ∨
    status_class_of q = "climbing" ∨ status_class_of q = "sideways" := by
  unfold status_class_of classifyStatus
  split_ifs <;> dsimp only <;> decide

lemma status_class_of_iff (q : ℚ) :
    (status_class_of q = "yes" ↔ q ≤ -10) ∧
    (status_class_of q = "bleeding" ↔ (-10 < q ∧ q ≤ -5)) ∧
    (status_class_of q = "wobbly" ↔ (-5 < q ∧ q < -2)) ∧
    (status_class_of q = "no" ↔ 2 < q) ∧
    (status_class_of q = "climbing" ↔ (0.2 < q ∧ q ≤ 2)) ∧
    (status_class_of q = "sideways" ↔ (-2 ≤ q ∧ q ≤ 0.2)) := by
  unfold status_class_of classifyStatus
  split_ifs with h1 h2 h3 h4 h5 <;>
    dsimp only <;>
    refine ⟨?_, ?_, ?_, ?_, ?_, ?_⟩ <;>
    constructor <;>
    intro h <;>
    first
      | rfl
      | exact absurd h (by decide)
      | linarith
      | exact ⟨by linarith, by linarith⟩

lemma status_class_of_mem_keys (q : ℚ) : status_class_of q ∈ embed_map_keys := by
  rcases status_class_of_total q with h | h | h | h | h | h <;> rw [h] <;> decide

lemma gvhe_status_class_of_ne_empty (q : ℚ) :
    get_visual_humor_embed (status_class_of q) ≠ "" := by
  rcases status_class_of_total q with h | h | h | h | h | h <;> rw [h] <;> decide

/-- C1: the claim as stated is FALSE.  For a successful fetch whose
daily percent change is exactly 2, `get_market_data` classifies the
report as "climbing" (line 79's `elif overall_index_change > 0.2`
matches after line 74's strict `> 2` fails), not "sideways": the
returned report at change = 2 and price = 100 has
status_class = "climbing" ≠ "sideways". -/
theorem c1_counterexample :
    ∃ r, get_market_data (.success (some (.num 2)) (some (.num 100)))
        "2025-10-12 00:00:00 " = Except.ok r ∧
      r.status_class = "climbing" ∧ r.status_class ≠ "sideways" := by
  refine ⟨_, rfl, status_class_of_two, ?_⟩
  show status_class_of 2 ≠ "sideways"
  rw [status_class_of_two]
  decide

/-- C1 (amended): for a successful fetch whose daily percent change is
exactly 2 (any numeric or absent price), `get_market_data` classifies
the report as status_class "climbing" — not "no", since "no" requires
strictly greater than 2, and not "sideways". -/
theorem c1_amended (now : String) (c : Option ℚ) :
    ∃ r, get_market_data (.success (some (.num 2)) (c.map PyVal.num)) now =
        Except.ok r ∧
      r.status_class = "climbing" ∧ r.status_class ≠ "no" ∧
      r.status_class ≠ "sideways" := by
  cases c with
  | none =>
      refine ⟨_, rfl, status_class_of_two, ?_, ?_⟩
      · show status_class_of 2 ≠ "no"
        rw [status_class_of_two]; decide
      · show status_class_of 2 ≠ "sideways"
        rw [status_class_of_two]; decide
  | some p =>
      refine ⟨_, rfl, status_class_of_two, ?_, ?_⟩
      · show status_class_of 2 ≠ "no"
        rw [status_class_of_two]; decide
      · show status_class_of 2 ≠ "sideways"
        rw [status_class_of_two]; decide

/-- C2: the claim as stated is FALSE.  On a timeout the report does
have status_class "error", but index_change_percent is "0.00%", not
"N/A": `overall_index_change` is initialised to 0 on line 29 before the
request, so the `is not None` guard of line 135 formats that zero. -/
theorem c2_counterexample :
    ∃ r, get_market_data .timeout "2025-10-12 00:00:00 " = Except.ok r ∧
      r.status_class = "error" ∧ r.index_change_percent = "0.00%" ∧
      r.index_change_percent ≠ "N/A" := by
  refine ⟨_, rfl, rfl, ?_, ?_⟩
  · show formatTwoDec 0 ++ "%" = "0.00%"
    rw [formatTwoDec_zero]
    rfl
  · show formatTwoDec 0 ++ "%" ≠ "N/A"
    rw [formatTwoDec_zero]
    decide

/-- C2 (amended): whenever the HTTP request times out, `get_market_data`
returns a report with status_class "error", status_arrow "?", a
non-empty error_message, index_change_percent "0.00%" (the zero the
change variable was initialised to, formatted — never the "N/A"
fallback), and index_current_price "N/A" (the price really is absent). -/
theorem c2_amended_timeout_report (now : String) :
    ∃ r, get_market_data .timeout now = Except.ok r ∧
      r.status_class = "error" ∧ r.status_arrow = "?" ∧
      (∃ m, r.error_message = some m ∧ m ≠ "") ∧
      r.index_change_percent = "0.00%" ∧ r.index_change_percent ≠ "N/A" ∧
      r.index_current_price = "N/A" := by
  refine ⟨_, rfl, rfl, rfl, ⟨_, rfl, by decide⟩, ?_, ?_, rfl⟩
  · show formatTwoDec 0 ++ "%" = "0.00%"
    rw [formatTwoDec_zero]
    rfl
  · show formatTwoDec 0 ++ "%" ≠ "N/A"
    rw [formatTwoDec_zero]
    decide

/-- C3: the claim is the code's clear intent but the code violates it.
When the response is successful and the percent-change field is present
but non-numeric, the f-string of the return dictionary (line 135, which
sits OUTSIDE the try/except block) raises, so `get_market_data` raises
to its caller instead of returning an "error" report: here the model
returns `.error` on such an input. -/
theorem c3_nonnumeric_dp_raises :
    ∃ e, get_market_data (.success (some (.nonNum "oops")) (some (.num 100)))
        "2025-10-12 00:00:00 " = Except.error e :=
  ⟨_, rfl⟩

/-- C4: the threshold classification is a total, mutually exclusive
partition of the rationals: each of the six categories holds exactly on
its interval (the six equivalences, whose right-hand sides are pairwise
disjoint and cover ℚ), every value lands in one of the six categories,
and the boundary values behave as documented: -10 → "yes", -5 →
"bleeding", -2 → "sideways", 0.2 → "sideways". -/
theorem c4_classification_total_partition (q : ℚ) :
    (status_class_of q = "yes" ↔ q ≤ -10) ∧
    (status_class_of q = "bleeding" ↔ (-10 < q ∧ q ≤ -5)) ∧
    (status_class_of q = "wobbly" ↔ (-5 < q ∧ q < -2)) ∧
    (status_class_of q = "no" ↔ 2 < q) ∧
    (status_class_of q = "climbing" ↔ (0.2 < q ∧ q ≤ 2)) ∧
    (status_class_of q = "sideways" ↔ (-2 ≤ q ∧ q ≤ 0.2)) ∧
    (status_class_of q = "yes" ∨ status_class_of q = "bleeding" ∨
      status_class_of q = "wobbly" ∨ status_class_of q = "no" ∨
      status_class_of q = "climbing" ∨ status_class_of q = "sideways") ∧
    status_class_of (-10 : ℚ) = "yes" ∧ status_class_of (-5 : ℚ) = "bleeding" ∧
    status_class_of (-2 : ℚ) = "sideways" ∧ status_class_of (0.2 : ℚ) = "sideways" := by
  obtain ⟨i1, i2, i3, i4, i5, i6⟩ := status_class_of_iff q
  refine ⟨i1, i2, i3, i4, i5, i6, status_class_of_total q, ?_, ?_, ?_, ?_⟩ <;>
    · unfold status_class_of classifyStatus
      norm_num

/-- C5: a successful response with the percent-change field absent and
a numeric price present is treated as a 0% change: the report is
classified "sideways" (never "error"), carries the formatted zero
change "0.00%", and a non-empty advisory error_message. -/
theorem c5_missing_dp_soft_degrade (p : ℚ) (now : String) :
    ∃ r, get_market_data (.success none (some (.num p))) now = Except.ok r ∧
      r.status_class = "sideways" ∧ r.status_class ≠ "error" ∧
      r.index_change_percent = "0.00%" ∧
      ∃ m, r.error_message = some m ∧ m ≠ "" := by
  refine ⟨_, rfl, status_class_of_zero, ?_, ?_, ⟨_, rfl, by decide⟩⟩
  · show status_class_of 0 ≠ "error"
    rw [status_class_of_zero]; decide
  · show formatTwoDec 0 ++ "%" = "0.00%"
    rw [formatTwoDec_zero]
    rfl

/-- C6: every report `get_market_data` returns has a status_class in
the enumerated category set (the keys of `embed_map`) and a non-empty
embed snippet; `get_visual_humor_embed` returns a non-empty string for
every enumerated status_class and the (non-empty) fixed default for any
unrecognised status_class. -/
theorem c6_report_and_embed_invariants :
    (∀ (fetch : FetchResult) (now : String) (r : MarketReport),
        get_market_data fetch now = Except.ok r →
          r.status_class ∈ embed_map_keys ∧ r.giphy_embed_code ≠ "") ∧
    (∀ s : String, s ∈ embed_map_keys → get_visual_humor_embed s ≠ "") ∧
    (∀ s : String, s ∉ embed_map_keys → get_visual_humor_embed s = default_embed) ∧
    default_embed ≠ "" := by
  refine ⟨?_, ?_, ?_, by decide⟩
  · intro fetch now r h
    cases fetch with
    | timeout =>
        cases Except.ok.inj h
        exact ⟨by show ("error" : String) ∈ embed_map_keys; decide,
          by show get_visual_humor_embed "error" ≠ ""; decide⟩
    | httpError a b =>
        cases Except.ok.inj h
        exact ⟨by show ("error" : String) ∈ embed_map_keys; decide,
          by show get_visual_humor_embed "error" ≠ ""; decide⟩
    | requestError a =>
        cases Except.ok.inj h
        exact ⟨by show ("error" : String) ∈ embed_map_keys; decide,
          by show get_visual_humor_embed "error" ≠ ""; decide⟩
    | otherError a =>
        cases Except.ok.inj h
        exact ⟨by show ("error" : String) ∈ embed_map_keys; decide,
          by show get_visual_humor_embed "error" ≠ ""; decide⟩
    | success dp c =>
        cases dp with
        | none =>
            cases c with
            | none =>
                cases Except.ok.inj h
                exact ⟨status_class_of_mem_keys 0, gvhe_status_class_of_ne_empty 0⟩
            | some v =>
                cases v with
                | num p =>
                    cases Except.ok.inj h
                    exact ⟨status_class_of_mem_keys 0, gvhe_status_class_of_ne_empty 0⟩
                | nonNum s => exact Except.noConfusion h
        | some v =>
            cases v with
            | num q =>
                cases c with
                | none =>
                    cases Except.ok.inj h
                    exact ⟨status_class_of_mem_keys q, gvhe_status_class_of_ne_empty q⟩
                | some w =>
                    cases w with
                    | num p =>
                        cases Except.ok.inj h
                        exact ⟨status_class_of_mem_keys q, gvhe_status_class_of_ne_empty q⟩
                    | nonNum s => exact Except.noConfusion h
            | nonNum s => exact Except.noConfusion h
  · intro s hs
    fin_cases hs <;> decide
  · intro s hs
    simp only [embed_map_keys, embed_map, List.map_cons, List.map_nil, List.mem_cons,
      List.not_mem_nil, or_false, not_or] at hs
    obtain ⟨h1, h2, h3, h4, h5, h6, h7⟩ := hs
    simp only [get_visual_humor_embed, embed_map, List.lookup,
      beq_eq_false_iff_ne.mpr h1, beq_eq_false_iff_ne.mpr h2, beq_eq_false_iff_ne.mpr h3,
      beq_eq_false_iff_ne.mpr h4, beq_eq_false_iff_ne.mpr h5, beq_eq_false_iff_ne.mpr h6,
      beq_eq_false_iff_ne.mpr h7, Option.getD_none]

/-- Witness for C6: the invariants instantiated on a concrete timeout
run, on the enumerated status_class "yes", and on the unrecognised
status_class "maybe". -/
theorem c6_witness :
    get_visual_humor_embed "yes" ≠ "" ∧
    get_visual_humor_embed "maybe" = default_embed ∧
    ∃ r, get_market_data .timeout "2025-10-12 00:00:00 " = Except.ok r ∧
      r.status_class ∈ embed_map_keys ∧ r.giphy_embed_code ≠ "" :=
  ⟨c6_report_and_embed_invariants.2.1 "yes" (by decide),
   c6_report_and_embed_invariants.2.2.1 "maybe" (by decide),
   ⟨_, rfl, c6_report_and_embed_invariants.1 .timeout "2025-10-12 00:00:00 " _ rfl⟩⟩

/-- C7: for a successful fetch with current price 450.1234 and percent
change 3.5, the report formats the price to "450.12" and the change to
"3.50%", and classifies the day as status_class "no". -/
theorem c7_formatting_example :
    ∃ r, get_market_data (.success (some (.num 3.5)) (some (.num 450.1234)))
        "2025-10-12 00:00:00 " = Except.ok r ∧
      r.index_current_price = "450.12" ∧ r.index_change_percent = "3.50%" ∧
      r.status_class = "no" := by
  have h35 : formatTwoDec 3.5 = "3.50" := by
    unfold formatTwoDec roundHalfEven
    norm_num
    decide
  have h450 : formatTwoDec 450.1234 = "450.12" := by
    unfold formatTwoDec roundHalfEven
    norm_num
    decide
  have hsc : status_class_of 3.5 = "no" := by
    unfold status_class_of classifyStatus
    norm_num
  refine ⟨_, rfl, ?_, ?_, hsc⟩
  · show formatTwoDec 450.1234 = "450.12"
    exact h450
  · show formatTwoDec 3.5 ++ "%" = "3.50%"
    rw [h35]
    rfl

/-- C8: `generate_html` is a total boolean function of its three
fallible steps: it returns true exactly when the template loads, the
rendering succeeds and the file write succeeds, and returns false
(rather than raising) in every other case. -/
theorem c8_generate_html_success_iff (tpl : Except String Template)
    (data : MarketReport) (w : String → Except String Unit) :
    (generate_html tpl data w = true ∨ generate_html tpl data w = false) ∧
    (generate_html tpl data w = true ↔
      ∃ t c, tpl = Except.ok t ∧ t.render data = Except.ok c ∧
        w c = Except.ok ()) := by
  constructor
  · exact Bool.eq_false_or_eq_true (generate_html tpl data w)
  · unfold generate_html
    cases tpl with
    | error e => simp
    | ok t =>
        cases htr : t.render data with
        | error e => simp [htr]
        | ok content =>
            cases hw : w content with
            | error e => simp [htr, hw]
            | ok u => simp [htr, hw]

/-- C9: the exit-code policy is violated by the same slip as C3.  The
process exits 1 on a missing credential before any fetch, and exits 0
when the fetch degrades to an error report or the render fails; but
when the successful response carries a non-numeric percent-change
field, `get_market_data` raises and the interpreter exits non-zero
(modelled as 1), where the claim demands 0. -/
theorem c9_exit_codes :
    main_exit_code none .timeout "t" (Except.ok ok_template) ok_write = 1 ∧
    main_exit_code (some "key") .timeout "t" (Except.ok ok_template) ok_write = 0 ∧
    main_exit_code (some "key") (.success (some (.num 1)) none) "t"
      (Except.error "template.html not found") ok_write = 0 ∧
    main_exit_code (some "key") (.success (some (.nonNum "oops")) (some (.num 100))) "t"
      (Except.ok ok_template) ok_write = 1 :=
  ⟨rfl, rfl, rfl, rfl⟩

/-- C10: the pipeline is deterministic in everything but the generation
timestamp: running `get_market_data` on the same upstream outcome at
two different times yields the same result (the same raised exception,
or reports equal in every field) up to the `generation_time` field —
and `generate_html` is a pure function of the template, the report and
the write, so equal reports render to byte-identical output. -/
theorem c10_deterministic_modulo_generation_time (fetch : FetchResult)
    (t1 t2 : String) :
    Except.map (fun r => { r with generation_time := t2 })
        (get_market_data fetch t1) =
      get_market_data fetch t2 := by
  cases fetch with
  | timeout => rfl
  | httpError a b => rfl
  | requestError a => rfl
  | otherError a => rfl
  | success dp c =>
      cases dp with
      | none =>
          cases c with
          | none => rfl
          | some v => cases v <;> rfl
      | some v =>
          cases v with
          | num q =>
              cases c with
              | none => rfl
              | some w => cases w <;> rfl
          | nonNum s => rfl
